import Mathlib

/-!
Verification of the thermal-insulation sizing engine (calc-demo).

The numeric engine is embedded shallowly: TypeScript numbers are idealised
as real numbers `ℝ` (exact arithmetic), catalog tables and the stock-ladder
logic are embedded over `ℚ`/`ℕ` so they stay executable, and functions that
throw are embedded as `Except CalcError _`.  JS `Math.round` is
round-half-up (`⌊x + 1/2⌋`), `Math.ceil` is `⌈x⌉`.
-/

namespace CalcDemo

set_option maxRecDepth 20000

/-- Error taxonomy of the engine: every `throw new Error(...)` site is mapped
to the matching condition name of the specification. -/
inductive CalcError where
  | invalidEmissivity
  | invalidGeometry
  | invalidCoefficient
  | invalidHumidity
  | unreachableTarget
  deriving DecidableEq, Repr

/-- Pipe orientation, as in the TypeScript union type. -/
inductive Orientation where
  | horizontal
  | vertical
  deriving DecidableEq, Repr

/-- JS `Math.round(x * 1000) / 1000`: round to 3 decimals, halves toward plus
infinity. -/
noncomputable def round3 (x : ℝ) : ℝ := (⌊x * 1000 + 1 / 2⌋ : ℤ) / 1000

/-- JS `Math.ceil(x * 1000) / 1000`: round up to the next multiple of 0.001. -/
noncomputable def ceil3 (x : ℝ) : ℝ := (⌈x * 1000⌉ : ℤ) / 1000

/-- Stefan-Boltzmann constant as written in the source, `5.67e-8`. -/
noncomputable def sigmaSB : ℝ := 5.67e-8

/-- Embedding of `calculateHCoefficient`
(src/src/utils/thermal/calculations.ts, lines 338-398): the Standard
(ISO-simplified) h-estimator.  The optional `T_medium` mirrors the
`T_medium?: number` parameter; `applySafetyFactor` defaults to true at call
sites.  The `console.warn` for large temperature differences is a side effect
without influence on the value and is not modelled. -/
noncomputable def calculateHCoefficient (T_sup T_amb epsilon : ℝ)
    (applySafetyFactor : Bool) (T_medium : Option ℝ) : Except CalcError ℝ :=
  if epsilon < 0 ∨ epsilon > 1 then .error .invalidEmissivity
  else
    let T_sup_K := T_sup + 273.15
    let T_amb_K := T_amb + 273.15
    let deltaT := match T_medium with
      | some Tm => max |Tm - T_amb| 1
      | none => max |T_sup - T_amb| 1
    let alpha_conv_raw := 1.32 * deltaT ^ (0.33 : ℝ)
    let alpha_conv := max alpha_conv_raw (1 / 0.13)
    let T_sup4 := T_sup_K ^ (4 : ℕ)
    let T_amb4 := T_amb_K ^ (4 : ℕ)
    let deltaT_K := T_sup_K - T_amb_K
    let alpha_rad :=
      if |deltaT_K| < 0.01 then
        4 * epsilon * sigmaSB * ((T_sup_K + T_amb_K) / 2) ^ (3 : ℕ)
      else
        epsilon * sigmaSB * (T_sup4 - T_amb4) / deltaT_K
    let alpha_rad2 := min alpha_rad 6.5
    let h_raw := alpha_conv + alpha_rad2
    let safetyFactor := if applySafetyFactor then (0.75 : ℝ) else 1.0
    .ok (round3 (h_raw * safetyFactor))

/-- Modelled from the specification wording of the Standard mode (spec section
4.2 and claim C1): `h = round3((alpha_conv + alpha_rad) * s)` with
`alpha_conv = max(1.32 * dT^0.33, 1/0.13)` (the spec writes the floor as
`7.6923` and identifies it with `1/0.13`), `dT = max(|dT_eff|, 1)`,
`dT_eff = T_medium - T_amb` when a medium temperature is supplied else
`T_sup - T_amb`, exact Stefan-Boltzmann difference form in Kelvin with the
linearised fallback below 0.01 K, a 6.5 cap on radiation and
`s = 0.75`/`1.0`. -/
noncomputable def specStandardH (T_sup T_amb epsilon : ℝ)
    (safetyOn : Bool) (T_medium : Option ℝ) : ℝ :=
  let dT_eff := match T_medium with
    | some Tm => Tm - T_amb
    | none => T_sup - T_amb
  let dT := max |dT_eff| 1
  let alpha_conv := max (1.32 * dT ^ (0.33 : ℝ)) (1 / 0.13)
  let T_s := T_sup + 273.15
  let T_a := T_amb + 273.15
  let alpha_rad_uncapped :=
    if |T_s - T_a| < 0.01 then
      4 * epsilon * sigmaSB * ((T_s + T_a) / 2) ^ (3 : ℕ)
    else
      epsilon * sigmaSB * (T_s ^ (4 : ℕ) - T_a ^ (4 : ℕ)) / (T_s - T_a)
  let alpha_rad := min alpha_rad_uncapped 6.5
  let s := if safetyOn then (0.75 : ℝ) else 1.0
  round3 ((alpha_conv + alpha_rad) * s)

/-- Bracket scan of `interpolateLambda` (src/src/utils/thermal.ts, lines
9-18): walk consecutive breakpoint pairs of the sorted table, return the
linear interpolation of the first bracket containing `temp`, and fall through
to the default conductivity 0.036 when no bracket matches (fewer than two
points left).  Generic over the ordered field so the same code is usable at
`ℚ` (executable catalog facts) and at `ℝ` (inside the thermal solver). -/
def interpBrackets {K : Type} [LinearOrderedField K] : List (K × K) → K → K
  | (t0, l0) :: (t1, l1) :: rest, temp =>
    if t0 ≤ temp ∧ temp ≤ t1 then l0 + (l1 - l0) * (temp - t0) / (t1 - t0)
    else interpBrackets ((t1, l1) :: rest) temp
  | _, _ => 36 / 1000

/-- The `ROKAFLEX ST` conductivity table of `MATERIALS`
(src/src/utils/constants.ts): temperature breakpoints -20, 0, 20, 40, 60 with
conductivities 0.032, 0.034, 0.036, 0.038, 0.040. -/
def rokaflexLambdaTable (K : Type) [LinearOrderedField K] : List (K × K) :=
  [(-20, 32 / 1000), (0, 34 / 1000), (20, 36 / 1000), (40, 38 / 1000), (60, 40 / 1000)]

/-- The material catalog `MATERIALS`: a single entry keyed "ROKAFLEX ST". -/
def MATERIALS (K : Type) [LinearOrderedField K] : List (String × List (K × K)) :=
  [("ROKAFLEX ST", rokaflexLambdaTable K)]

/-- Embedding of `interpolateLambda` (src/src/utils/thermal.ts, lines 4-20):
catalog lookup by name (miss yields 0.036), breakpoints sorted ascending,
then the bracket scan.  The JS sorts the numeric keys with `.sort`; the
embedding sorts with insertion sort, which computes the same ascending
ordering. -/
def interpolateLambda {K : Type} [LinearOrderedField K] (temp : K) (material : String) : K :=
  match (MATERIALS K).lookup material with
  | none => 36 / 1000
  | some lambdaData =>
      interpBrackets (List.insertionSort (fun a b => a.1 ≤ b.1) lambdaData) temp

/-- Embedding of `calculateDewPoint` (src/src/utils/thermal/calculations.ts,
lines 408-415), the Magnus formula. -/
noncomputable def calculateDewPoint (T UR : ℝ) : ℝ :=
  let gamma := Real.log (UR / 100) + 17.62 * T / (243.12 + T)
  243.12 * gamma / (17.62 - gamma)

/-- The thickness grid of the scan in `calculateMinimumThickness`: the loop
`for (thickness = 0.1; thickness <= 100; thickness += 0.1)` visits, in exact
arithmetic, the values k/10 for k = 1..1000. -/
def thicknessSteps : List ℚ := (List.range 1000).map (fun k : ℕ => ((k : ℚ) + 1) / 10)

/-- Surface temperature computed by one iteration of the scan in
`calculateMinimumThickness` (src/src/utils/condensation.ts, lines 75-99):
cylindrical insulation and convection resistances per unit length, heat flow,
then `T_surface = T_medium - q * R_insulation`. -/
noncomputable def condensationSurfaceTemp (ri lam h mediumTemp ambientTemp thickness : ℝ) : ℝ :=
  let ro := ri + thickness / 1000
  let R_ins := Real.log (ro / ri) / (2 * Real.pi * lam)
  let R_conv := 1 / (h * 2 * Real.pi * ro)
  let R_total := R_ins + R_conv
  let deltaT := mediumTemp - ambientTemp
  let heatFlow := deltaT / R_total
  mediumTemp - heatFlow * R_ins

/-- The acceptance test of one scan step: surface temperature at this
thickness (in mm) is at or above dew point + 0.4. -/
noncomputable def condLoopPred (tubeDiameter ambientTemp mediumTemp dewPoint : ℝ)
    (material : String) (h : ℝ) (thickness : ℚ) : Bool :=
  let targetSurfaceTemp := dewPoint + 0.4
  let meanTemp := (ambientTemp + mediumTemp) / 2
  let lam := interpolateLambda meanTemp material
  let ri := tubeDiameter / 2 / 1000
  decide (targetSurfaceTemp ≤
    condensationSurfaceTemp ri lam h mediumTemp ambientTemp (thickness : ℝ))

/-- Embedding of `calculateMinimumThickness` (src/src/utils/condensation.ts,
lines 32-109): boundary validation (positive diameter and h, dew point below
ambient, dew point + 0.4 margin not above ambient), then a linear scan over
`thicknessSteps` returning the first accepted thickness; on exhaustion the
source returns the constant 50. -/
noncomputable def calculateMinimumThickness (tubeDiameter ambientTemp mediumTemp dewPoint : ℝ)
    (material : String) (h : ℝ) : Except CalcError ℝ :=
  if tubeDiameter ≤ 0 then .error .invalidGeometry
  else if h ≤ 0 then .error .invalidCoefficient
  else if dewPoint ≥ ambientTemp then .error .invalidHumidity
  else if dewPoint + 0.4 > ambientTemp then .error .unreachableTarget
  else
    match thicknessSteps.find?
        (condLoopPred tubeDiameter ambientTemp mediumTemp dewPoint material h) with
    | some t => .ok (t : ℝ)
    | none => .ok 50

/-- Tube material kind, as in `TubeSize.type`. -/
inductive TubeType where
  | copper
  | steel
  deriving DecidableEq, Repr

/-- One entry of the `ALL_TUBE_SIZES` table (src/src/utils/constants.ts):
outer diameter in mm and the stocked insulation thickness table
(thickness in mm, stock count). -/
structure TubeSize where
  tubeType : TubeType
  dn : String
  inch : String
  mm : ℚ
  wallThicknesses : List (ℕ × ℕ)
  deriving DecidableEq, Repr

/-- Embedding of `ALL_TUBE_SIZES` (src/src/utils/constants.ts, lines
100-127). -/
def ALL_TUBE_SIZES : List TubeSize :=
  [⟨.copper, "DN8", "1/4", 6, [(6, 486), (9, 342), (13, 216)]⟩,
   ⟨.copper, "DN8", "5/16", 8, [(6, 432), (9, 306), (13, 198)]⟩,
   ⟨.copper, "DN10", "3/8", 10, [(6, 378), (9, 270), (13, 180)]⟩,
   ⟨.copper, "DN15", "1/2", 12, [(6, 342), (9, 234), (13, 162)]⟩,
   ⟨.copper, "DN15", "5/8", 15, [(6, 270), (9, 198), (13, 144)]⟩,
   ⟨.copper, "DN20", "3/4", 18, [(6, 234), (9, 180), (13, 126), (19, 72), (25, 56)]⟩,
   ⟨.copper, "DN20", "7/8", 22, [(6, 198), (9, 162), (13, 108), (19, 72), (25, 48), (32, 32)]⟩,
   ⟨.copper, "DN25", "1", 25, [(6, 164), (9, 134), (13, 96), (19, 66), (25, 44), (32, 28)]⟩,
   ⟨.copper, "DN25", "1 1/8", 28, [(6, 132), (9, 108), (13, 84), (19, 60), (25, 40), (32, 24)]⟩,
   ⟨.copper, "DN32", "1 3/8", 35, [(6, 120), (9, 96), (13, 72), (19, 48), (25, 32), (32, 24)]⟩,
   ⟨.copper, "DN40", "1 5/8", 42, [(6, 108), (9, 88), (13, 56), (19, 40), (25, 24), (32, 22)]⟩,
   ⟨.steel, "DN6", "1/8", 102 / 10, []⟩,
   ⟨.steel, "DN8", "1/4", 135 / 10, []⟩,
   ⟨.steel, "DN10", "3/8", 172 / 10, []⟩,
   ⟨.steel, "DN15", "1/2", 213 / 10, [(6, 342), (9, 234), (13, 162)]⟩,
   ⟨.steel, "DN20", "3/4", 269 / 10, [(6, 234), (9, 180), (13, 126), (19, 72), (25, 56)]⟩,
   ⟨.steel, "DN25", "1", 337 / 10, [(6, 164), (9, 134), (13, 96), (19, 66), (25, 44), (32, 28)]⟩,
   ⟨.steel, "DN32", "1 1/4", 424 / 10, [(6, 108), (9, 88), (13, 56), (19, 40), (25, 24), (32, 22)]⟩,
   ⟨.steel, "DN40", "1 1/2", 483 / 10, [(9, 80), (13, 48), (19, 32), (25, 24), (32, 18)]⟩,
   ⟨.steel, "DN50", "2", 603 / 10, [(9, 56), (13, 40), (19, 32), (25, 18), (32, 14)]⟩,
   ⟨.steel, "DN65", "2 1/2", 761 / 10, [(9, 48), (13, 36), (19, 24), (25, 18), (32, 12)]⟩,
   ⟨.steel, "DN80", "3", 889 / 10, [(9, 42), (13, 30), (19, 24), (25, 16), (32, 12)]⟩,
   ⟨.steel, "DN100", "4", 1143 / 10, [(9, 28), (13, 24), (19, 16), (25, 12), (32, 8)]⟩]

/-- The generic fallback size ladder of `calculateCondensation`. -/
def defaultLadder : List ℕ := [6, 9, 13, 19, 25, 32]

/-- The available-thickness ladder of `calculateCondensation`
(src/unnamed/part_002, lines 91-95): keys of the selected tube entry with its
`wallThicknesses` sorted ascending when the diameter is listed (note: a
listed tube with an empty `wallThicknesses` object is truthy in JS, so the
ladder is then empty), else the default ladder. -/
def ladderOf (tubeDiameter : ℚ) : List TubeSize → List ℕ
  | [] => defaultLadder
  | tube :: rest =>
    if tube.mm = tubeDiameter then
      List.insertionSort (· ≤ ·) (tube.wallThicknesses.map Prod.fst)
    else ladderOf tubeDiameter rest

/-- The nominal-size pick of `calculateCondensation` (src/unnamed/part_002,
line 98): first ladder member at or above the target, with the JS
`|| arr[arr.length - 1]` fallback to the last member; on an empty ladder both
give `undefined`, modelled as `none`.  (Ladder members are the positive stock
sizes 6..32, so JS truthiness of a found member never fails.) -/
def selectRecommendedThickness (ladder : List ℕ) (nominal : ℤ) : Option ℕ :=
  match ladder.find? (fun t : ℕ => decide (nominal ≤ (t : ℤ))) with
  | some v => some v
  | none => ladder.getLast?

/-- Input record of `calculateCondensation`.  The UI supplies finite decimal
numbers, modelled as rationals; the thermal arithmetic itself is carried out
over `ℝ`. -/
structure CondensationParams where
  ambientTemp : ℚ
  mediumTemp : ℚ
  tubeDiameter : ℚ
  material : String
  h : ℚ
  relativeHumidity : ℚ
  deriving DecidableEq

/-- Result record of `calculateCondensation` (numeric core of
`CondensationResults`): the recommendation string is represented by the
numeric thickness it embeds, `none` when the JS value is `undefined`. -/
structure CondensationResults where
  dewpointTemperature : ℝ
  minimumThickness : ℝ
  recommendedThickness : Option ℕ

/-- Embedding of `calculateCondensation` (src/unnamed/part_002, lines 66-118):
early return (`none`) on invalid humidity/h, Magnus dew point, minimum
thickness (a thrown error is caught by the surrounding try/catch and produces
no result), then `nominal = ceil(min * 1.2)` and the stock-ladder pick. -/
noncomputable def calculateCondensation (p : CondensationParams) : Option CondensationResults :=
  if p.relativeHumidity ≤ 0 ∨ p.relativeHumidity > 100 ∨ p.h ≤ 0 then none
  else
    let dewPoint := calculateDewPoint (p.ambientTemp : ℝ) (p.relativeHumidity : ℝ)
    match calculateMinimumThickness (p.tubeDiameter : ℝ) (p.ambientTemp : ℝ)
        (p.mediumTemp : ℝ) dewPoint p.material (p.h : ℝ) with
    | .error _ => none
    | .ok minThickness =>
        let nominalThickness : ℤ := ⌈minThickness * 1.2⌉
        some { dewpointTemperature := dewPoint
               minimumThickness := minThickness
               recommendedThickness :=
                 selectRecommendedThickness (ladderOf p.tubeDiameter ALL_TUBE_SIZES)
                   nominalThickness }

/-- ΔT-recalibrated convection base coefficient of the K-FLEX estimator in
condensation mode (src/unnamed/part_005, lines 60-68): linear recalibration
around ΔT = 30 K, clamped from below at 1.44 (horizontal) / 1.58
(vertical). -/
noncomputable def kflexCondensationBaseCoeff (orientation : Orientation) (deltaT : ℝ) : ℝ :=
  let deltaFrom30 := deltaT - 30
  let adaptiveCoeff :=
    if orientation = .horizontal then 1.646 - 0.0057 * deltaFrom30
    else 1.8 - 0.0063 * deltaFrom30
  max adaptiveCoeff (if orientation = .horizontal then 1.44 else 1.58)

/-- Embedding of `calculateKFlexH` (src/unnamed/part_005, lines 37-104): the
K-FLEX-calibrated h-estimator. -/
noncomputable def calculateKFlexH (T_amb T_medium epsilon : ℝ) (orientation : Orientation)
    (tubeDiameter insulationThickness : Option ℝ) (forCondensation : Bool) :
    Except CalcError ℝ :=
  if epsilon < 0 ∨ epsilon > 1 then .error .invalidEmissivity
  else
    let deltaT := max |T_medium - T_amb| 1
    let baseCoeff :=
      if forCondensation then kflexCondensationBaseCoeff orientation deltaT
      else if orientation = .horizontal then (1.646 : ℝ) else 1.8
    let power : ℝ := if orientation = .horizontal then 0.33 else 0.25
    let alphaConvBase := baseCoeff * deltaT ^ power
    let alphaConv :=
      match tubeDiameter, insulationThickness with
      | some d, some s =>
        if d > 0 ∧ s ≥ 0 then
          let D_outer := (d + 2 * s) / 1000
          let D_ref : ℝ := 0.043
          let powerCorrection : ℝ := if forCondensation then 0.15 else 0.1
          alphaConvBase * (D_ref / D_outer) ^ powerCorrection
        else alphaConvBase
      | _, _ => alphaConvBase
    let T_meanK := (T_amb + T_medium) / 2 + 273.15
    let alphaRad := 4 * epsilon * sigmaSB * T_meanK ^ (3 : ℕ)
    .ok (round3 (alphaConv + alphaRad))

/-- Embedding of `calculateAdvancedH`
(src/src/utils/thermal/advanced-algorithm.ts, lines 42-118): the AdvancedPipe
h-estimator. -/
noncomputable def calculateAdvancedH (T_amb T_medium epsilon : ℝ) (orientation : Orientation)
    (tubeDiameter insulationThickness : Option ℝ) : Except CalcError ℝ :=
  if epsilon < 0 ∨ epsilon > 1 then .error .invalidEmissivity
  else
    let deltaT_conv := max |T_medium - T_amb| 1
    let baseCoeff : ℝ := if orientation = .horizontal then 1.646 else 1.8
    let power : ℝ := if orientation = .horizontal then 0.33 else 0.25
    let alpha_conv_base := baseCoeff * deltaT_conv ^ power
    let alpha_conv_raw :=
      match tubeDiameter, insulationThickness with
      | some d, some s =>
        if d > 0 ∧ s ≥ 0 then
          let D_outer := (d + 2 * s) / 1000
          let D_ref := 0.000955 * d + 0.0244
          alpha_conv_base * (D_ref / D_outer) ^ (0.474 : ℝ)
        else alpha_conv_base
      | _, _ => alpha_conv_base
    let alpha_conv := ceil3 alpha_conv_raw
    let T_mean := (T_amb + T_medium) / 2
    let T_rad_K := T_mean + 0.75 + 273.15
    let alpha_rad := 4 * epsilon * sigmaSB * T_rad_K ^ (3 : ℕ)
    .ok (round3 (alpha_conv + alpha_rad))

/-- Embedding of `calculateAdvancedH_Sheets`
(src/src/utils/thermal/advanced-algorithm.ts, lines 132-180): the
AdvancedSheet h-estimator. -/
noncomputable def calculateAdvancedH_Sheets (T_amb T_medium epsilon : ℝ) :
    Except CalcError ℝ :=
  if epsilon < 0 ∨ epsilon > 1 then .error .invalidEmissivity
  else
    let deltaT_conv := max |T_medium - T_amb| 1
    let alpha_conv_raw :=
      if T_amb ≥ 20 then 1.32 * deltaT_conv ^ (0.33 : ℝ)
      else (1.32 - 0.017 * (20 - T_amb)) * deltaT_conv ^ (0.33 : ℝ)
    let alpha_conv := max alpha_conv_raw (1 / 0.13)
    let T_mean := (T_amb + T_medium) / 2
    let radCoeff := if T_mean ≥ 10 then 2.628 - 0.0295 * (25 - T_mean) else 1.4
    let alpha_rad := epsilon * max radCoeff 1.4
    let h_raw := alpha_conv + alpha_rad
    .ok (round3 (h_raw * 0.75))

/-- Modelled from the specification wording of the AdvancedPipe mode (claim
C7): convection is the orientation-dependent base term `C * dT^p` times the
diameter correction `(D_ref / D_outer)^0.474` with
`D_ref = 0.000955 * D_pipe + 0.0244`, rounded up (ceiling) to the next 0.001;
radiation is the linearised form `4 * eps * sigma * T^3` with a +0.75 K
offset added to the mean temperature before conversion to Kelvin; no cap and
no safety factor. -/
noncomputable def specAdvancedPipeH (T_amb T_medium epsilon : ℝ) (orientation : Orientation)
    (D_pipe s_ins : ℝ) : ℝ :=
  let dT := max |T_medium - T_amb| 1
  let C : ℝ := if orientation = .horizontal then 1.646 else 1.8
  let p : ℝ := if orientation = .horizontal then 0.33 else 0.25
  let D_ref := 0.000955 * D_pipe + 0.0244
  let D_outer := (D_pipe + 2 * s_ins) / 1000
  let conv := ceil3 (C * dT ^ p * (D_ref / D_outer) ^ (0.474 : ℝ))
  let T_mean := (T_amb + T_medium) / 2
  let rad := 4 * epsilon * sigmaSB * (T_mean + 0.75 + 273.15) ^ (3 : ℕ)
  round3 (conv + rad)

/-- Reference temperature at which `calculateHeatLoss`
(src/src/components/calculators/pipes/HeatLossCalculator.tsx, lines 92-96)
evaluates the conductivity. -/
def heatLossLambdaRefTemp (ambientTemp mediumTemp : ℚ) : ℚ :=
  ambientTemp + 0.533 * (mediumTemp - ambientTemp) + 21

/-- Reference temperature at which `calculateMinimumThickness`
(src/src/utils/condensation.ts, lines 66-68) evaluates the conductivity. -/
def condensationLambdaRefTemp (ambientTemp mediumTemp : ℚ) : ℚ :=
  (ambientTemp + mediumTemp) / 2

/-- C1: for every input with emissivity in [0,1] the Standard-mode estimator
returns (without error) exactly the value described by the specification:
round-to-3-decimals of `(alpha_conv + alpha_rad) * s` with the convection
floor `1/0.13`, the 1 K temperature-difference floor, the exact
Stefan-Boltzmann difference form with linearised fallback below 0.01 K, the
6.5 radiation cap and the optional 0.75 safety factor.  In particular, with
`T_sup = T_amb` no division occurs: the second conjunct shows the result is
the linearised-radiation, unit-difference form. -/
theorem standard_h_matches_spec (T_sup T_amb epsilon : ℝ)
    (applySafetyFactor : Bool) (T_medium : Option ℝ)
    (h0 : 0 ≤ epsilon) (h1 : epsilon ≤ 1) :
    calculateHCoefficient T_sup T_amb epsilon applySafetyFactor T_medium =
      .ok (specStandardH T_sup T_amb epsilon applySafetyFactor T_medium) ∧
    calculateHCoefficient T_amb T_amb epsilon applySafetyFactor none =
      .ok (round3 ((max (1.32 * (1 : ℝ) ^ (0.33 : ℝ)) (1 / 0.13) +
        min (4 * epsilon * sigmaSB * (T_amb + 273.15) ^ (3 : ℕ)) 6.5) *
        (if applySafetyFactor then (0.75 : ℝ) else 1.0))) := by
  have hnot : ¬ (epsilon < 0 ∨ epsilon > 1) := by
    push_neg
    exact ⟨h0, h1⟩
  constructor
  · cases T_medium with
    | none =>
        simp only [calculateHCoefficient, specStandardH, if_neg hnot]
    | some Tm =>
        simp only [calculateHCoefficient, specStandardH, if_neg hnot]
  · simp only [calculateHCoefficient, if_neg hnot]
    have hz : T_amb + 273.15 - (T_amb + 273.15) = 0 := by ring
    rw [hz]
    have habs : |(0 : ℝ)| < 0.01 := by norm_num
    rw [if_pos habs]
    have hm : (T_amb + 273.15 + (T_amb + 273.15)) / 2 = T_amb + 273.15 := by ring
    rw [hm]
    have hd : max |T_amb - T_amb| 1 = (1 : ℝ) := by
      simp
    rw [hd]

/-- Witness for C1 at a concrete input. -/
theorem standard_h_matches_spec_witness :
    calculateHCoefficient 30 20 (1 / 2) true none =
      .ok (specStandardH 30 20 (1 / 2) true none) :=
  (standard_h_matches_spec 30 20 (1 / 2) true none (by norm_num) (by norm_num)).1

/-- Lower estimate of the logarithm, derived from `log x ≤ x - 1`. -/
theorem log_ge_one_sub_inv {x : ℝ} (hx : 0 < x) : 1 - x⁻¹ ≤ Real.log x := by
  have h := Real.log_le_sub_one_of_pos (inv_pos.mpr hx)
  rw [Real.log_inv] at h
  linarith

/-- The Magnus dew point of 60 percent humidity air at 10 degrees is at most
4.2 degrees. -/
theorem dew_10_60_le : calculateDewPoint 10 60 ≤ 4.2 := by
  simp only [calculateDewPoint]
  have hlog : Real.log (60 / 100) ≤ -(2 / 5) := by
    have h1 : ((60 : ℝ) / 100) = ((5 / 3 : ℝ))⁻¹ := by norm_num
    rw [h1, Real.log_inv]
    have h2 := log_ge_one_sub_inv (x := (5 / 3 : ℝ)) (by norm_num)
    have h3 : (1 : ℝ) - ((5 / 3 : ℝ))⁻¹ = 2 / 5 := by norm_num
    linarith
  set g : ℝ := Real.log (60 / 100) + 17.62 * 10 / (243.12 + 10) with hg
  have hfrac : (17.62 : ℝ) * 10 / (243.12 + 10) ≤ 0.6962 := by norm_num
  have hub : g ≤ 0.2962 := by rw [hg]; linarith
  have hden : (0 : ℝ) < 17.62 - g := by linarith
  rw [div_le_iff₀ hden]
  linarith

/-- Under the validation preconditions, `calculateMinimumThickness` always
returns a value, whether or not the scan succeeds. -/
theorem calculateMinimumThickness_isOk (d amb med dew : ℝ) (mat : String) (h : ℝ)
    (hd : 0 < d) (hh : 0 < h) (h3 : dew < amb) (h4 : dew + 0.4 ≤ amb) :
    ∃ m, calculateMinimumThickness d amb med dew mat h = .ok m := by
  simp only [calculateMinimumThickness, ge_iff_le, gt_iff_lt]
  rw [if_neg (not_le.mpr hd), if_neg (not_le.mpr hh), if_neg (not_le.mpr h3),
    if_neg (not_lt.mpr h4)]
  rcases hfind : thicknessSteps.find? (condLoopPred d amb med dew mat h) with _ | t
  · exact ⟨50, rfl⟩
  · exact ⟨(t : ℝ), rfl⟩

/-- A successful `List.find?` splits the list around the first hit. -/
theorem find?_split {α : Type} (p : α → Bool) (l : List α) (a : α)
    (h : l.find? p = some a) :
    ∃ l1 l2, l = l1 ++ a :: l2 ∧ (∀ x ∈ l1, p x = false) ∧ p a = true := by
  induction l with
  | nil => simp [List.find?] at h
  | cons b t ih =>
    cases hpb : p b with
    | true =>
      rw [List.find?_cons_of_pos _ hpb] at h
      obtain rfl : b = a := by injection h
      exact ⟨[], t, rfl, by simp, hpb⟩
    | false =>
      rw [List.find?_cons_of_neg _ (by simp [hpb])] at h
      obtain ⟨l1, l2, rfl, hall, hpa⟩ := ih h
      refine ⟨b :: l1, l2, rfl, ?_, hpa⟩
      intro x hx
      rcases List.mem_cons.mp hx with rfl | hmem
      · exact hpb
      · exact hall x hmem

/-- The scan grid is strictly increasing. -/
theorem thicknessSteps_pairwise : thicknessSteps.Pairwise (· < ·) := by
  unfold thicknessSteps
  refine List.Pairwise.map (fun k : ℕ => ((k : ℚ) + 1) / 10) ?_ (List.pairwise_lt_range 1000)
  intro a b hab
  have hab2 : (a : ℚ) < (b : ℚ) := by exact_mod_cast hab
  linarith

/-- Every grid point lies between 0.1 and 100 mm. -/
theorem thicknessSteps_bounds {t : ℚ} (ht : t ∈ thicknessSteps) : 1 / 10 ≤ t ∧ t ≤ 100 := by
  unfold thicknessSteps at ht
  rcases (List.mem_map (f := fun k : ℕ => ((k : ℚ) + 1) / 10)).mp ht with ⟨k, hk, rfl⟩
  have hk' : k < 1000 := List.mem_range.mp hk
  have hk0 : (0 : ℚ) ≤ (k : ℚ) := by positivity
  have hk9 : k ≤ 999 := by omega
  have hk1 : (k : ℚ) ≤ 999 := by exact_mod_cast hk9
  constructor
  · linarith
  · linarith

/-- C4: amended.  `calculateMinimumThickness` raises `InvalidHumidity`
whenever the supplied dew point is at or above the ambient temperature, and
(when the dew point is below ambient) raises `UnreachableTarget` whenever dew
point + 0.4 margin is above ambient; both checks sit at the function boundary
before the thickness scan, so on failure the error is the whole result and no
scan step contributes.  (The Scenario D premise of the original claim is
refuted separately: at relativeHumidity = 60, ambientTemp = 10 the dew point
is below 10, so no error is raised there.) -/
theorem min_thickness_boundary_errors (d amb med dew : ℝ) (mat : String) (h : ℝ)
    (hd : 0 < d) (hh : 0 < h) :
    (dew ≥ amb → calculateMinimumThickness d amb med dew mat h = .error .invalidHumidity) ∧
    (dew < amb → dew + 0.4 > amb →
      calculateMinimumThickness d amb med dew mat h = .error .unreachableTarget) := by
  constructor
  · intro hge
    simp only [calculateMinimumThickness, ge_iff_le, gt_iff_lt]
    rw [if_neg (not_le.mpr hd), if_neg (not_le.mpr hh),
      if_pos (show amb ≤ dew from hge)]
  · intro hlt hgt
    simp only [calculateMinimumThickness, ge_iff_le, gt_iff_lt]
    rw [if_neg (not_le.mpr hd), if_neg (not_le.mpr hh), if_neg (not_le.mpr hlt),
      if_pos (show amb < dew + 0.4 from hgt)]

/-- Witness for C4 at concrete inputs: a dew point of 30 against ambient 20
raises `InvalidHumidity`; a dew point of 24.8 against ambient 25 raises
`UnreachableTarget`. -/
theorem min_thickness_boundary_errors_witness :
    calculateMinimumThickness 20 20 5 30 "" 9 = .error .invalidHumidity ∧
    calculateMinimumThickness 20 25 5 24.8 "" 9 = .error .unreachableTarget :=
  ⟨(min_thickness_boundary_errors 20 20 5 30 "" 9 (by norm_num) (by norm_num)).1
      (by norm_num),
   (min_thickness_boundary_errors 20 25 5 24.8 "" 9 (by norm_num) (by norm_num)).2
      (by norm_num) (by norm_num)⟩

/-- C4 counterexample: the Scenario D premise is false on the code.  At
relativeHumidity = 60 and ambientTemp = 10 the Magnus dew point is below
10 degrees, so `calculateMinimumThickness` raises nothing and runs the
search: the function returns a value instead of the claimed
`InvalidHumidity`. -/
theorem scenario_d_counterexample :
    calculateDewPoint 10 60 < 10 ∧
    ∃ m, calculateMinimumThickness 20 10 (-5) (calculateDewPoint 10 60)
      "ROKAFLEX ST" 9 = .ok m := by
  have h1 := dew_10_60_le
  exact ⟨by linarith,
    calculateMinimumThickness_isOk 20 10 (-5) (calculateDewPoint 10 60) "ROKAFLEX ST" 9
      (by norm_num) (by norm_num) (by linarith) (by linarith)⟩

/-- C2: amended.  Under the validation preconditions the scan either returns
the first grid thickness (0.1 mm steps up to 100 mm) whose surface
temperature reaches dew point + 0.4, or, when no grid thickness qualifies,
returns the constant 50 (not the scan ceiling 100) as a best-effort result
rather than raising an error. -/
theorem min_thickness_scan_amended (d amb med dew : ℝ) (mat : String) (h : ℝ)
    (hd : 0 < d) (hh : 0 < h) (h3 : dew < amb) (h4 : dew + 0.4 ≤ amb) :
    (∃ t ∈ thicknessSteps,
        calculateMinimumThickness d amb med dew mat h = .ok (t : ℝ) ∧
        condLoopPred d amb med dew mat h t = true ∧
        ∀ u ∈ thicknessSteps, u < t → condLoopPred d amb med dew mat h u = false) ∨
    ((∀ t ∈ thicknessSteps, condLoopPred d amb med dew mat h t = false) ∧
      calculateMinimumThickness d amb med dew mat h = .ok 50) := by
  simp only [calculateMinimumThickness, ge_iff_le, gt_iff_lt]
  rw [if_neg (not_le.mpr hd), if_neg (not_le.mpr hh), if_neg (not_le.mpr h3),
    if_neg (not_lt.mpr h4)]
  rcases hfind : thicknessSteps.find? (condLoopPred d amb med dew mat h) with _ | t
  · right
    refine ⟨?_, rfl⟩
    intro t ht
    have hnone := List.find?_eq_none.mp hfind t ht
    simpa using hnone
  · left
    obtain ⟨l1, l2, heq, hl1, hpt⟩ := find?_split _ _ _ hfind
    refine ⟨t, ?_, rfl, hpt, ?_⟩
    · rw [heq]
      exact List.mem_append_right _ (List.mem_cons_self _ _)
    · intro u hu hlt
      have hpair := thicknessSteps_pairwise
      rw [heq] at hpair hu
      rcases List.mem_append.mp hu with hmem1 | hmem2
      · exact hl1 u hmem1
      · rcases List.mem_cons.mp hmem2 with rfl | hmem3
        · exact absurd hlt (lt_irrefl _)
        · have htu : t < u := (List.pairwise_cons.mp (List.pairwise_append.mp hpair).2.1).1 u hmem3
          exact absurd hlt (not_lt.mpr htu.le)

/-- Witness for C2 at a concrete input satisfying the preconditions. -/
theorem min_thickness_scan_amended_witness :
    (∃ t ∈ thicknessSteps,
        calculateMinimumThickness 20 20 10 10 "" 5 = .ok (t : ℝ) ∧
        condLoopPred 20 20 10 10 "" 5 t = true ∧
        ∀ u ∈ thicknessSteps, u < t → condLoopPred 20 20 10 10 "" 5 u = false) ∨
    ((∀ t ∈ thicknessSteps, condLoopPred 20 20 10 10 "" 5 t = false) ∧
      calculateMinimumThickness 20 20 10 10 "" 5 = .ok 50) :=
  min_thickness_scan_amended 20 20 10 10 "" 5 (by norm_num) (by norm_num)
    (by norm_num) (by norm_num)

/-- A material name absent from the catalog always yields the default
conductivity 0.036. -/
theorem interpolateLambda_unknown {K : Type} [LinearOrderedField K] (temp : K) :
    interpolateLambda temp "" = 36 / 1000 := rfl

/-- With a very cold medium (-200), warm humid ambient air (25) and a nearly
insulating outer film (h = 0.01), the surface stays below 24.9 degrees at
every thickness of the scan range. -/
theorem surfaceTemp_cold_bound (t : ℝ) (h1 : (1 : ℝ) / 10 ≤ t) (h2 : t ≤ 100) :
    condensationSurfaceTemp 0.01 (36 / 1000) 0.01 (-200) 25 t < 24.9 := by
  simp only [condensationSurfaceTemp]
  have hpi1 : (3.14 : ℝ) < Real.pi := Real.pi_gt_d2
  have hpi2 : Real.pi < 3.15 := Real.pi_lt_d2
  set ro : ℝ := 0.01 + t / 1000 with hro
  have hro1 : 0.0101 ≤ ro := by rw [hro]; linarith
  have hro2 : ro ≤ 0.11 := by rw [hro]; linarith
  set L : ℝ := Real.log (ro / 0.01) with hL
  have hlog0 : 0 ≤ L := by
    rw [hL]
    apply Real.log_nonneg
    rw [le_div_iff₀ (by norm_num : (0 : ℝ) < 0.01)]
    linarith
  have hlogu : L ≤ 10 := by
    rw [hL]
    have hpos : (0 : ℝ) < ro / 0.01 := by positivity
    have hlog := Real.log_le_sub_one_of_pos hpos
    have hr : ro / 0.01 ≤ 11 := by
      rw [div_le_iff₀ (by norm_num : (0 : ℝ) < 0.01)]
      linarith
    linarith
  set Ri : ℝ := L / (2 * Real.pi * (36 / 1000)) with hRi
  set Rc : ℝ := 1 / (0.01 * 2 * Real.pi * ro) with hRc
  have hRi0 : 0 ≤ Ri := by
    rw [hRi]
    positivity
  have hRiu : Ri ≤ 50 := by
    rw [hRi]
    rw [div_le_iff₀ (by positivity)]
    nlinarith
  have hro0 : (0 : ℝ) < ro := lt_of_lt_of_le (by norm_num) hro1
  have hπro0 : 0 < Real.pi * ro := mul_pos Real.pi_pos hro0
  have hRcl : 144 ≤ Rc := by
    rw [hRc]
    rw [le_div_iff₀ (by nlinarith)]
    have hπro : Real.pi * ro ≤ 3.15 * 0.11 :=
      mul_le_mul hpi2.le hro2 (by linarith) (by norm_num)
    nlinarith
  have hRt : 0 < Ri + Rc := by linarith
  have key : 225 * Ri < 224.9 * (Ri + Rc) := by nlinarith
  have heq : (-200 : ℝ) - (-200 - 25) / (Ri + Rc) * Ri = -200 + 225 * Ri / (Ri + Rc) := by
    ring
  rw [heq]
  have hfrac : 225 * Ri / (Ri + Rc) < 224.9 := by
    rw [div_lt_iff₀ hRt]
    linarith
  linarith

/-- C2 counterexample: with ambient 25, medium -200, dew point 24.5, an
unlisted material and h = 0.01, every one of the 1000 scan steps fails the
surface criterion, and the function then returns 50 - not the scan ceiling
100 named by the claim. -/
theorem min_thickness_exhaustion_returns_50 :
    (∀ t ∈ thicknessSteps, condLoopPred 20 25 (-200) 24.5 "" 0.01 t = false) ∧
    calculateMinimumThickness 20 25 (-200) 24.5 "" 0.01 = .ok 50 ∧
    calculateMinimumThickness 20 25 (-200) 24.5 "" 0.01 ≠ .ok 100 := by
  have hall : ∀ t ∈ thicknessSteps, condLoopPred 20 25 (-200) 24.5 "" 0.01 t = false := by
    intro t ht
    obtain ⟨hlb, hub⟩ := thicknessSteps_bounds ht
    have hlb2 : ((1 : ℝ) / 10) ≤ (t : ℝ) := by
      have hc : (((1 : ℚ) / 10 : ℚ) : ℝ) ≤ ((t : ℚ) : ℝ) := Rat.cast_le.mpr hlb
      push_cast at hc
      exact hc
    have hub2 : (t : ℝ) ≤ 100 := by
      have hc : (((t : ℚ)) : ℝ) ≤ ((100 : ℚ) : ℝ) := Rat.cast_le.mpr hub
      push_cast at hc
      exact hc
    have hb := surfaceTemp_cold_bound (t : ℝ) hlb2 hub2
    simp only [condLoopPred]
    apply decide_eq_false
    rw [interpolateLambda_unknown]
    have h2 : (20 : ℝ) / 2 / 1000 = 0.01 := by norm_num
    rw [h2]
    exact not_le.mpr (lt_of_lt_of_le hb (by norm_num))
  have hfind : thicknessSteps.find? (condLoopPred 20 25 (-200) 24.5 "" 0.01) = none :=
    List.find?_eq_none.mpr (fun x hx => by simp [hall x hx])
  have hmain : calculateMinimumThickness 20 25 (-200) 24.5 "" 0.01 = .ok 50 := by
    simp only [calculateMinimumThickness, ge_iff_le, gt_iff_lt]
    rw [if_neg (show ¬ ((20 : ℝ) ≤ 0) by norm_num),
      if_neg (show ¬ ((0.01 : ℝ) ≤ 0) by norm_num),
      if_neg (show ¬ ((25 : ℝ) ≤ 24.5) by norm_num),
      if_neg (show ¬ ((25 : ℝ) < 24.5 + 0.4) by norm_num), hfind]
  refine ⟨hall, hmain, ?_⟩
  rw [hmain]
  intro hcontr
  have h50 : (50 : ℝ) = 100 := by injection hcontr
  norm_num at h50

/-- Every ladder the recommendation step works on is ascending: stocked
thickness keys are sorted by the code, and the default ladder is sorted. -/
theorem ladderOf_sorted (d : ℚ) (l : List TubeSize) : (ladderOf d l).Sorted (· ≤ ·) := by
  induction l with
  | nil =>
    rw [ladderOf]
    decide
  | cons tube rest ih =>
    rw [ladderOf]
    split
    · exact List.sorted_insertionSort _ _
    · exact ih

/-- C3: amended.  Whenever the applicable ladder is nonempty, the recommended
thickness exists, is a member of the ladder, and is either the smallest
member at or above the nominal target `ceil(1.2 * minimum)` or - when every
member is below the target - the largest member (which can then be smaller
than the minimum thickness).  A diameter listed with an empty stock table
(steel DN6, DN8, DN10) yields an empty ladder and no recommendation at all:
the source only falls back to the default ladder {6,9,13,19,25,32} for
unlisted diameters.  `calculateCondensation` computes its recommendation as
`selectRecommendedThickness (ladderOf tubeDiameter ALL_TUBE_SIZES) nominal`
by definition. -/
theorem condensation_nominal_amended (d : ℚ) (nominal : ℤ)
    (hne : ladderOf d ALL_TUBE_SIZES ≠ []) :
    ∃ v, selectRecommendedThickness (ladderOf d ALL_TUBE_SIZES) nominal = some v ∧
      v ∈ ladderOf d ALL_TUBE_SIZES ∧
      ((nominal ≤ (v : ℤ) ∧
        ∀ u ∈ ladderOf d ALL_TUBE_SIZES, nominal ≤ (u : ℤ) → v ≤ u) ∨
       ((∀ u ∈ ladderOf d ALL_TUBE_SIZES, (u : ℤ) < nominal) ∧
        (ladderOf d ALL_TUBE_SIZES).getLast? = some v)) := by
  set ladder := ladderOf d ALL_TUBE_SIZES with hladder
  have hsorted : ladder.Sorted (· ≤ ·) := ladderOf_sorted d ALL_TUBE_SIZES
  rcases hfind : ladder.find? (fun t : ℕ => decide (nominal ≤ (t : ℤ))) with _ | v
  · have hbelow : ∀ u ∈ ladder, (u : ℤ) < nominal := by
      intro u hu
      have hnone := List.find?_eq_none.mp hfind u hu
      simp only [decide_eq_true_eq] at hnone
      omega
    obtain ⟨x, hx⟩ := List.exists_mem_of_ne_nil ladder hne
    have hlast : ladder.getLast? = some (ladder.getLast hne) :=
      List.getLast?_eq_getLast ladder hne
    refine ⟨ladder.getLast hne, ?_, List.getLast_mem hne, Or.inr ⟨hbelow, hlast⟩⟩
    simp only [selectRecommendedThickness, hfind, hlast]
  · obtain ⟨l1, l2, heq, hl1, hpv⟩ := find?_split _ _ _ hfind
    simp only [decide_eq_true_eq] at hpv
    refine ⟨v, ?_, ?_, Or.inl ⟨hpv, ?_⟩⟩
    · simp only [selectRecommendedThickness, hfind]
    · rw [heq]
      exact List.mem_append_right _ (List.mem_cons_self _ _)
    · intro u hu hule
      rw [heq] at hu hsorted
      rcases List.mem_append.mp hu with hmem1 | hmem2
      · exfalso
        have := hl1 u hmem1
        simp only [decide_eq_false_iff_not] at this
        omega
      · rcases List.mem_cons.mp hmem2 with rfl | hmem3
        · exact le_refl _
        · exact (List.pairwise_cons.mp (List.pairwise_append.mp hsorted).2.1).1 u hmem3

/-- Witness for C3 at a concrete input: tube diameter 22 mm (ladder
6,9,13,19,25,32) and nominal target 17 mm. -/
theorem condensation_nominal_amended_witness :
    ∃ v, selectRecommendedThickness (ladderOf 22 ALL_TUBE_SIZES) 17 = some v ∧
      v ∈ ladderOf 22 ALL_TUBE_SIZES ∧
      (((17 : ℤ) ≤ (v : ℤ) ∧
        ∀ u ∈ ladderOf 22 ALL_TUBE_SIZES, (17 : ℤ) ≤ (u : ℤ) → v ≤ u) ∨
       ((∀ u ∈ ladderOf 22 ALL_TUBE_SIZES, (u : ℤ) < 17) ∧
        (ladderOf 22 ALL_TUBE_SIZES).getLast? = some v)) :=
  condensation_nominal_amended 22 17 (by simp [ladderOf, ALL_TUBE_SIZES])

/-- C3 counterexample: steel DN6 (10.2 mm) is listed with an empty stock
table.  The condensation calculation completes and produces a result, yet no
recommended thickness exists at all - the JS value is `undefined` - so the
recommendation is neither a member of the default ladder (the fallback the
claim expects for an empty stock table) nor at or above the minimum
thickness. -/
theorem condensation_unstocked_tube_counterexample :
    ∃ r, calculateCondensation ⟨10, -5, 102 / 10, "ROKAFLEX ST", 9, 60⟩ = some r ∧
      r.recommendedThickness = none := by
  have hdew := dew_10_60_le
  simp only [calculateCondensation]
  rw [if_neg (show ¬ ((60 : ℚ) ≤ 0 ∨ (60 : ℚ) > 100 ∨ (9 : ℚ) ≤ 0) by norm_num)]
  have hc10 : ((10 : ℚ) : ℝ) = 10 := by norm_num
  have hc60 : ((60 : ℚ) : ℝ) = 60 := by norm_num
  have hc5 : ((-5 : ℚ) : ℝ) = -5 := by norm_num
  have hc9 : ((9 : ℚ) : ℝ) = 9 := by norm_num
  have hcd : ((102 / 10 : ℚ) : ℝ) = 102 / 10 := by push_cast; ring
  rw [hc10, hc60, hc5, hc9, hcd]
  obtain ⟨m, hm⟩ := calculateMinimumThickness_isOk (102 / 10) 10 (-5)
    (calculateDewPoint 10 60) "ROKAFLEX ST" 9
    (by norm_num) (by norm_num) (by linarith) (by linarith)
  rw [hm]
  refine ⟨_, rfl, ?_⟩
  have hladder : ladderOf (102 / 10) ALL_TUBE_SIZES = [] := by
    norm_num [ladderOf, ALL_TUBE_SIZES]
  simp only [hladder, selectRecommendedThickness, List.find?_nil, List.getLast?_nil]

/-- C5: for every h-estimator mode (Standard, KFlexCalibrated, AdvancedPipe,
AdvancedSheet), an emissivity outside [0,1] makes the function fail with the
InvalidEmissivity condition as its very first step - the temperatures,
orientation, geometry and flags are arbitrary and never reach any arithmetic
- and no coefficient value is returned. -/
theorem invalid_emissivity_all_modes (T_sup T_amb T_medium epsilon : ℝ)
    (sf : Bool) (T_med_opt : Option ℝ) (orient : Orientation)
    (dOpt sOpt : Option ℝ) (fc : Bool)
    (he : epsilon < 0 ∨ epsilon > 1) :
    calculateHCoefficient T_sup T_amb epsilon sf T_med_opt = .error .invalidEmissivity ∧
    calculateKFlexH T_amb T_medium epsilon orient dOpt sOpt fc = .error .invalidEmissivity ∧
    calculateAdvancedH T_amb T_medium epsilon orient dOpt sOpt = .error .invalidEmissivity ∧
    calculateAdvancedH_Sheets T_amb T_medium epsilon = .error .invalidEmissivity := by
  refine ⟨?_, ?_, ?_, ?_⟩
  · simp only [calculateHCoefficient]
    rw [if_pos he]
  · simp only [calculateKFlexH]
    rw [if_pos he]
  · simp only [calculateAdvancedH]
    rw [if_pos he]
  · simp only [calculateAdvancedH_Sheets]
    rw [if_pos he]

/-- Witness for C5 at emissivity -0.1 (out of range below zero). -/
theorem invalid_emissivity_all_modes_witness :
    calculateHCoefficient 30 25 (-0.1) true none = .error .invalidEmissivity ∧
    calculateKFlexH 25 (-5) (-0.1) .horizontal none none false = .error .invalidEmissivity ∧
    calculateAdvancedH 25 (-5) (-0.1) .horizontal none none = .error .invalidEmissivity ∧
    calculateAdvancedH_Sheets 25 (-5) (-0.1) = .error .invalidEmissivity :=
  invalid_emissivity_all_modes 30 25 (-5) (-0.1) true none .horizontal none none false
    (by norm_num)

/-- C7: for every valid input to the AdvancedPipe estimator with known
geometry (positive diameter, nonnegative insulation thickness), the result
equals the specification formula: convection is the orientation base term
times the diameter correction `(D_ref / D_outer)^0.474` with
`D_ref = 0.000955 * D_pipe + 0.0244`, rounded up to the next 0.001 before the
sum; radiation is linearised with the +0.75 K mean-temperature offset; no cap
and no safety factor. -/
theorem advanced_pipe_matches_spec (T_amb T_medium epsilon : ℝ) (orient : Orientation)
    (d s : ℝ) (h0 : 0 ≤ epsilon) (h1 : epsilon ≤ 1) (hd : 0 < d) (hs : 0 ≤ s) :
    calculateAdvancedH T_amb T_medium epsilon orient (some d) (some s) =
      .ok (specAdvancedPipeH T_amb T_medium epsilon orient d s) := by
  have hnot : ¬ (epsilon < 0 ∨ epsilon > 1) := by
    push_neg
    exact ⟨h0, h1⟩
  simp only [calculateAdvancedH, specAdvancedPipeH, if_neg hnot]
  rw [if_pos ⟨hd, hs⟩]

/-- Witness for C7 at a concrete input. -/
theorem advanced_pipe_matches_spec_witness :
    calculateAdvancedH 25 (-5) 0.9 .horizontal (some 22) (some 9) =
      .ok (specAdvancedPipeH 25 (-5) 0.9 .horizontal 22 9) :=
  advanced_pipe_matches_spec 25 (-5) 0.9 .horizontal 22 9
    (by norm_num) (by norm_num) (by norm_num) (by norm_num)

/-- C10: in the K-FLEX condensation mode the recalibrated convection base
coefficient is clamped from below at 1.44 (horizontal) and 1.58 (vertical)
for every ΔT, and the linear-in-ΔT recalibration is in force exactly up to
the crossover points ΔT - 30 = 0.206/0.0057 (horizontal) and
ΔT - 30 = 0.22/0.0063 (vertical), beyond which the floor value is
returned. -/
theorem kflex_condensation_base_clamped (deltaT : ℝ) :
    1.44 ≤ kflexCondensationBaseCoeff .horizontal deltaT ∧
    1.58 ≤ kflexCondensationBaseCoeff .vertical deltaT ∧
    (deltaT - 30 ≤ 0.206 / 0.0057 →
      kflexCondensationBaseCoeff .horizontal deltaT = 1.646 - 0.0057 * (deltaT - 30)) ∧
    (0.206 / 0.0057 ≤ deltaT - 30 →
      kflexCondensationBaseCoeff .horizontal deltaT = 1.44) ∧
    (deltaT - 30 ≤ 0.22 / 0.0063 →
      kflexCondensationBaseCoeff .vertical deltaT = 1.8 - 0.0063 * (deltaT - 30)) ∧
    (0.22 / 0.0063 ≤ deltaT - 30 →
      kflexCondensationBaseCoeff .vertical deltaT = 1.58) := by
  have hh : kflexCondensationBaseCoeff .horizontal deltaT =
      max (1.646 - 0.0057 * (deltaT - 30)) 1.44 := by
    simp [kflexCondensationBaseCoeff]
  have hv : kflexCondensationBaseCoeff .vertical deltaT =
      max (1.8 - 0.0063 * (deltaT - 30)) 1.58 := by
    simp [kflexCondensationBaseCoeff]
  rw [hh, hv]
  refine ⟨le_max_right _ _, le_max_right _ _, ?_, ?_, ?_, ?_⟩
  · intro hc
    apply max_eq_left
    rw [le_div_iff₀ (by norm_num : (0 : ℝ) < 0.0057)] at hc
    linarith
  · intro hc
    apply max_eq_right
    rw [div_le_iff₀ (by norm_num : (0 : ℝ) < 0.0057)] at hc
    linarith
  · intro hc
    apply max_eq_left
    rw [le_div_iff₀ (by norm_num : (0 : ℝ) < 0.0063)] at hc
    linarith
  · intro hc
    apply max_eq_right
    rw [div_le_iff₀ (by norm_num : (0 : ℝ) < 0.0063)] at hc
    linarith

/-- Witness for C10 at ΔT = 40 K (inside the linear region) and ΔT = 200 K
(clamped region). -/
theorem kflex_condensation_base_clamped_witness :
    kflexCondensationBaseCoeff .horizontal 40 = 1.646 - 0.0057 * (40 - 30) ∧
    kflexCondensationBaseCoeff .horizontal 200 = 1.44 ∧
    1.58 ≤ kflexCondensationBaseCoeff .vertical 200 :=
  ⟨(kflex_condensation_base_clamped 40).2.2.1 (by norm_num),
   (kflex_condensation_base_clamped 200).2.2.2.1 (by norm_num),
   (kflex_condensation_base_clamped 200).2.1⟩

/-- Sorting the stored conductivity table is the identity: the breakpoints
are already ascending. -/
theorem rokaflex_sorted :
    List.insertionSort (fun a b : ℚ × ℚ => a.1 ≤ b.1) (rokaflexLambdaTable ℚ) =
      rokaflexLambdaTable ℚ := by
  norm_num [rokaflexLambdaTable, List.insertionSort, List.orderedInsert]

/-- The catalog lookup for "ROKAFLEX ST" reduces to the bracket scan over the
sorted table. -/
theorem interpolateLambda_rokaflex (temp : ℚ) :
    interpolateLambda temp "ROKAFLEX ST" = interpBrackets (rokaflexLambdaTable ℚ) temp := by
  have hlook : (MATERIALS ℚ).lookup "ROKAFLEX ST" = some (rokaflexLambdaTable ℚ) := rfl
  simp only [interpolateLambda, hlook, rokaflex_sorted]

/-- Full unfolding of the bracket scan on the ROKAFLEX ST table. -/
theorem interpBrackets_rokaflex (temp : ℚ) :
    interpBrackets (rokaflexLambdaTable ℚ) temp =
      if -20 ≤ temp ∧ temp ≤ 0 then
        32 / 1000 + (34 / 1000 - 32 / 1000) * (temp - -20) / (0 - -20)
      else if 0 ≤ temp ∧ temp ≤ 20 then
        34 / 1000 + (36 / 1000 - 34 / 1000) * (temp - 0) / (20 - 0)
      else if 20 ≤ temp ∧ temp ≤ 40 then
        36 / 1000 + (38 / 1000 - 36 / 1000) * (temp - 20) / (40 - 20)
      else if 40 ≤ temp ∧ temp ≤ 60 then
        38 / 1000 + (40 / 1000 - 38 / 1000) * (temp - 40) / (60 - 40)
      else 36 / 1000 := by
  simp only [rokaflexLambdaTable, interpBrackets]

/-- C6: for every material name and temperature the interpolator returns a
positive number without error; inside the table range of the catalog
material it returns the linear interpolation of the first bracket containing
the temperature (hence exactly the table value at each breakpoint), and
outside every bracket - strictly above 60, strictly below -20, or for an
unknown material - it returns the default 0.036 instead of extrapolating. -/
theorem interpolate_lambda_cases :
    (∀ (temp : ℚ) (mat : String), 0 < interpolateLambda temp mat) ∧
    (∀ temp : ℚ, -20 ≤ temp → temp ≤ 0 →
      interpolateLambda temp "ROKAFLEX ST" =
        32 / 1000 + (34 / 1000 - 32 / 1000) * (temp - -20) / (0 - -20)) ∧
    (∀ temp : ℚ, 0 ≤ temp → temp ≤ 20 →
      interpolateLambda temp "ROKAFLEX ST" =
        34 / 1000 + (36 / 1000 - 34 / 1000) * (temp - 0) / (20 - 0)) ∧
    (∀ temp : ℚ, 20 ≤ temp → temp ≤ 40 →
      interpolateLambda temp "ROKAFLEX ST" =
        36 / 1000 + (38 / 1000 - 36 / 1000) * (temp - 20) / (40 - 20)) ∧
    (∀ temp : ℚ, 40 ≤ temp → temp ≤ 60 →
      interpolateLambda temp "ROKAFLEX ST" =
        38 / 1000 + (40 / 1000 - 38 / 1000) * (temp - 40) / (60 - 40)) ∧
    (∀ p ∈ rokaflexLambdaTable ℚ, interpolateLambda p.1 "ROKAFLEX ST" = p.2) ∧
    (∀ temp : ℚ, 60 < temp → interpolateLambda temp "ROKAFLEX ST" = 36 / 1000) ∧
    (∀ temp : ℚ, temp < -20 → interpolateLambda temp "ROKAFLEX ST" = 36 / 1000) ∧
    (∀ (temp : ℚ) (mat : String), mat ≠ "ROKAFLEX ST" →
      interpolateLambda temp mat = 36 / 1000) := by
  have hunknown : ∀ (temp : ℚ) (mat : String), mat ≠ "ROKAFLEX ST" →
      interpolateLambda temp mat = 36 / 1000 := by
    intro temp mat hne
    have hlook : (MATERIALS ℚ).lookup mat = none := by
      have hbeq : (mat == "ROKAFLEX ST") = false := beq_eq_false_iff_ne.mpr hne
      simp [MATERIALS, List.lookup, hbeq]
    simp only [interpolateLambda, hlook]
  have hb1 : ∀ temp : ℚ, -20 ≤ temp → temp ≤ 0 →
      interpolateLambda temp "ROKAFLEX ST" =
        32 / 1000 + (34 / 1000 - 32 / 1000) * (temp - -20) / (0 - -20) := by
    intro temp hlo hhi
    rw [interpolateLambda_rokaflex, interpBrackets_rokaflex, if_pos ⟨hlo, hhi⟩]
  have hb2 : ∀ temp : ℚ, 0 ≤ temp → temp ≤ 20 →
      interpolateLambda temp "ROKAFLEX ST" =
        34 / 1000 + (36 / 1000 - 34 / 1000) * (temp - 0) / (20 - 0) := by
    intro temp hlo hhi
    rw [interpolateLambda_rokaflex, interpBrackets_rokaflex]
    by_cases h0 : temp ≤ 0
    · have h00 : temp = 0 := le_antisymm h0 hlo
      subst h00
      norm_num
    · rw [if_neg (fun hand => h0 hand.2), if_pos ⟨hlo, hhi⟩]
  have hb3 : ∀ temp : ℚ, 20 ≤ temp → temp ≤ 40 →
      interpolateLambda temp "ROKAFLEX ST" =
        36 / 1000 + (38 / 1000 - 36 / 1000) * (temp - 20) / (40 - 20) := by
    intro temp hlo hhi
    rw [interpolateLambda_rokaflex, interpBrackets_rokaflex]
    by_cases h0 : temp ≤ 20
    · have h00 : temp = 20 := le_antisymm h0 hlo
      subst h00
      norm_num
    · rw [if_neg (fun hand => h0 (le_trans hand.2 (by norm_num))),
        if_neg (fun hand => h0 hand.2), if_pos ⟨hlo, hhi⟩]
  have hb4 : ∀ temp : ℚ, 40 ≤ temp → temp ≤ 60 →
      interpolateLambda temp "ROKAFLEX ST" =
        38 / 1000 + (40 / 1000 - 38 / 1000) * (temp - 40) / (60 - 40) := by
    intro temp hlo hhi
    rw [interpolateLambda_rokaflex, interpBrackets_rokaflex]
    by_cases h0 : temp ≤ 40
    · have h00 : temp = 40 := le_antisymm h0 hlo
      subst h00
      norm_num
    · rw [if_neg (fun hand => h0 (le_trans hand.2 (by norm_num))),
        if_neg (fun hand => h0 (le_trans hand.2 (by norm_num))),
        if_neg (fun hand => h0 hand.2), if_pos ⟨hlo, hhi⟩]
  have habove : ∀ temp : ℚ, 60 < temp → interpolateLambda temp "ROKAFLEX ST" = 36 / 1000 := by
    intro temp hgt
    rw [interpolateLambda_rokaflex, interpBrackets_rokaflex,
      if_neg (fun hand => absurd hand.2 (by linarith)),
      if_neg (fun hand => absurd hand.2 (by linarith)),
      if_neg (fun hand => absurd hand.2 (by linarith)),
      if_neg (fun hand => absurd hand.2 (by linarith))]
  have hbelow : ∀ temp : ℚ, temp < -20 → interpolateLambda temp "ROKAFLEX ST" = 36 / 1000 := by
    intro temp hlt
    rw [interpolateLambda_rokaflex, interpBrackets_rokaflex,
      if_neg (fun hand => absurd hand.1 (by linarith)),
      if_neg (fun hand => absurd hand.1 (by linarith)),
      if_neg (fun hand => absurd hand.1 (by linarith)),
      if_neg (fun hand => absurd hand.1 (by linarith))]
  have hpos : ∀ (temp : ℚ) (mat : String), 0 < interpolateLambda temp mat := by
    intro temp mat
    by_cases hmat : mat = "ROKAFLEX ST"
    · subst hmat
      rcases lt_or_le temp (-20) with hr | hr
      · rw [hbelow temp hr]
        norm_num
      rcases le_or_lt temp 0 with h2 | h2
      · rw [hb1 temp hr h2]
        have hnn : 0 ≤ (34 / 1000 - 32 / 1000 : ℚ) * (temp - -20) / (0 - -20) := by
          apply div_nonneg
          · apply mul_nonneg (by norm_num)
            linarith
          · norm_num
        linarith
      rcases le_or_lt temp 20 with h3 | h3
      · rw [hb2 temp h2.le h3]
        have hnn : 0 ≤ (36 / 1000 - 34 / 1000 : ℚ) * (temp - 0) / (20 - 0) := by
          apply div_nonneg
          · apply mul_nonneg (by norm_num)
            linarith
          · norm_num
        linarith
      rcases le_or_lt temp 40 with h4 | h4
      · rw [hb3 temp h3.le h4]
        have hnn : 0 ≤ (38 / 1000 - 36 / 1000 : ℚ) * (temp - 20) / (40 - 20) := by
          apply div_nonneg
          · apply mul_nonneg (by norm_num)
            linarith
          · norm_num
        linarith
      rcases le_or_lt temp 60 with h5 | h5
      · rw [hb4 temp h4.le h5]
        have hnn : 0 ≤ (40 / 1000 - 38 / 1000 : ℚ) * (temp - 40) / (60 - 40) := by
          apply div_nonneg
          · apply mul_nonneg (by norm_num)
            linarith
          · norm_num
        linarith
      · rw [habove temp h5]
        norm_num
    · rw [hunknown temp mat hmat]
      norm_num
  have hbreak : ∀ p ∈ rokaflexLambdaTable ℚ, interpolateLambda p.1 "ROKAFLEX ST" = p.2 := by
    intro p hp
    simp only [rokaflexLambdaTable, List.mem_cons, List.not_mem_nil, or_false] at hp
    rcases hp with rfl | rfl | rfl | rfl | rfl
    · rw [hb1 (-20) (by norm_num) (by norm_num)]
      norm_num
    · rw [hb1 0 (by norm_num) (by norm_num)]
      norm_num
    · rw [hb2 20 (by norm_num) (by norm_num)]
      norm_num
    · rw [hb3 40 (by norm_num) (by norm_num)]
      norm_num
    · rw [hb4 60 (by norm_num) (by norm_num)]
      norm_num
  exact ⟨hpos, hb1, hb2, hb3, hb4, hbreak, habove, hbelow, hunknown⟩

/-- Witness for C6: the interpolation at 10 degrees and its positivity. -/
theorem interpolate_lambda_cases_witness :
    interpolateLambda (10 : ℚ) "ROKAFLEX ST" =
      34 / 1000 + (36 / 1000 - 34 / 1000) * ((10 : ℚ) - 0) / (20 - 0) ∧
    (0 : ℚ) < interpolateLambda (10 : ℚ) "ROKAFLEX ST" :=
  ⟨interpolate_lambda_cases.2.2.1 10 (by norm_num) (by norm_num),
   interpolate_lambda_cases.1 10 "ROKAFLEX ST"⟩

/-- C8: Scenario A with ambientTemp = 25, mediumTemp = -5 and material
ROKAFLEX ST.  The condensation solver evaluates the conductivity at the mean
temperature (25 + -5)/2 = 10, and the interpolated conductivity there is
exactly the piecewise-linear interpolation between the 0 and 20 degree
breakpoints (0.034 and 0.036), namely 0.035.  The reference temperature of the heat-loss calculator,
reference temperature 25 + 0.533 * (-30) + 21 = 30.01 also evaluates, on this
affine table, to the value of the same 0-to-20 interpolation line. -/
theorem scenario_a_lambda :
    condensationLambdaRefTemp 25 (-5) = 10 ∧
    interpolateLambda (condensationLambdaRefTemp 25 (-5)) "ROKAFLEX ST" =
      34 / 1000 + (36 / 1000 - 34 / 1000) * ((10 : ℚ) - 0) / (20 - 0) ∧
    interpolateLambda (condensationLambdaRefTemp 25 (-5)) "ROKAFLEX ST" = 35 / 1000 ∧
    heatLossLambdaRefTemp 25 (-5) = 3001 / 100 ∧
    interpolateLambda (heatLossLambdaRefTemp 25 (-5)) "ROKAFLEX ST" =
      34 / 1000 + (36 / 1000 - 34 / 1000) * ((3001 / 100 : ℚ) - 0) / (20 - 0) := by
  have hcref : condensationLambdaRefTemp 25 (-5) = 10 := by
    norm_num [condensationLambdaRefTemp]
  have hhref : heatLossLambdaRefTemp 25 (-5) = 3001 / 100 := by
    norm_num [heatLossLambdaRefTemp]
  refine ⟨hcref, ?_, ?_, hhref, ?_⟩
  · rw [hcref, interpolateLambda_rokaflex, interpBrackets_rokaflex]
    norm_num
  · rw [hcref, interpolateLambda_rokaflex, interpBrackets_rokaflex]
    norm_num
  · rw [hhref, interpolateLambda_rokaflex, interpBrackets_rokaflex]
    norm_num

/-- Two-sided bound on the natural logarithm of 10, obtained from the
nine-digit bounds on log 2 and elementary bounds on log(9/8) and
log(10/9). -/
theorem log_ten_bounds : 2.2892 < Real.log 10 ∧ Real.log 10 < 2.3156 := by
  have hdecomp : Real.log 10 = 3 * Real.log 2 + Real.log (9 / 8) + Real.log (10 / 9) := by
    have h1 : (10 : ℝ) = 2 ^ (3 : ℕ) * (9 / 8) * (10 / 9) := by norm_num
    rw [h1, Real.log_mul (by norm_num) (by norm_num),
      Real.log_mul (by norm_num) (by norm_num), Real.log_pow]
    push_cast
    ring
  have l2l := Real.log_two_gt_d9
  have l2u := Real.log_two_lt_d9
  have h98l : 1 - ((9 / 8 : ℝ))⁻¹ ≤ Real.log (9 / 8) := log_ge_one_sub_inv (by norm_num)
  have h98u : Real.log (9 / 8) ≤ 9 / 8 - 1 := Real.log_le_sub_one_of_pos (by norm_num)
  have h109l : 1 - ((10 / 9 : ℝ))⁻¹ ≤ Real.log (10 / 9) := log_ge_one_sub_inv (by norm_num)
  have h109u : Real.log (10 / 9) ≤ 10 / 9 - 1 := Real.log_le_sub_one_of_pos (by norm_num)
  have e1 : (1 : ℝ) - ((9 / 8 : ℝ))⁻¹ = 1 / 9 := by norm_num
  have e2 : (1 : ℝ) - ((10 / 9 : ℝ))⁻¹ = 1 / 10 := by norm_num
  rw [e1] at h98l
  rw [e2] at h109l
  rw [hdecomp]
  constructor
  · linarith
  · linarith

/-- C9: amended.  For every air temperature above the Magnus singularity at
-243.12, the dew point is strictly increasing in relative humidity on
(0, 100], and at 100 percent humidity it equals the air temperature exactly.
(The original unrestricted claim fails below the singularity; see the
counterexample.) -/
theorem dew_point_monotone_amended (T : ℝ) (hT : -243.12 < T) :
    (∀ RH1 RH2 : ℝ, 0 < RH1 → RH1 < RH2 → RH2 ≤ 100 →
      calculateDewPoint T RH1 < calculateDewPoint T RH2) ∧
    calculateDewPoint T 100 = T := by
  have hden : (0 : ℝ) < 243.12 + T := by linarith
  have hclt : 17.62 * T / (243.12 + T) < 17.62 := by
    rw [div_lt_iff₀ hden]
    nlinarith
  constructor
  · intro RH1 RH2 h1 h12 h100
    simp only [calculateDewPoint]
    have hg12 : Real.log (RH1 / 100) < Real.log (RH2 / 100) :=
      Real.log_lt_log (by positivity) (by linarith)
    have hg2 : Real.log (RH2 / 100) ≤ 0 :=
      Real.log_nonpos (by linarith) (by linarith)
    have h2lt : Real.log (RH2 / 100) + 17.62 * T / (243.12 + T) < 17.62 := by linarith
    have h1lt : Real.log (RH1 / 100) + 17.62 * T / (243.12 + T) <
        Real.log (RH2 / 100) + 17.62 * T / (243.12 + T) := by linarith
    set g1 := Real.log (RH1 / 100) + 17.62 * T / (243.12 + T)
    set g2 := Real.log (RH2 / 100) + 17.62 * T / (243.12 + T)
    have hd1 : (0 : ℝ) < 17.62 - g1 := by linarith
    have hd2 : (0 : ℝ) < 17.62 - g2 := by linarith
    rw [div_lt_div_iff₀ hd1 hd2]
    nlinarith
  · simp only [calculateDewPoint]
    rw [show (100 : ℝ) / 100 = 1 by norm_num, Real.log_one, zero_add]
    rw [div_eq_iff (by linarith : (17.62 : ℝ) - 17.62 * T / (243.12 + T) ≠ 0)]
    field_simp [ne_of_gt hden]
    ring

/-- Witness for C9 at air temperature 20 and humidities 50 and 100. -/
theorem dew_point_monotone_amended_witness :
    calculateDewPoint 20 50 < calculateDewPoint 20 100 ∧
    calculateDewPoint 20 100 = 20 :=
  ⟨(dew_point_monotone_amended 20 (by norm_num)).1 50 100 (by norm_num) (by norm_num)
      (by norm_num),
   (dew_point_monotone_amended 20 (by norm_num)).2⟩

/-- C9 counterexample: at the (physically extreme, but numerically accepted)
air temperature -250, below the Magnus singularity -243.12, the dew-point
function is not increasing in relative humidity: the humidity 10^-270 lies in
(0, 100] and gets a strictly larger dew point than humidity 100. -/
theorem dew_point_not_monotone_counterexample :
    (0 : ℝ) < 1 / 10 ^ 270 ∧ (1 / 10 ^ 270 : ℝ) < 100 ∧
    calculateDewPoint (-250) 100 < calculateDewPoint (-250) (1 / 10 ^ 270) := by
  refine ⟨by positivity, by norm_num, ?_⟩
  have h100 : calculateDewPoint (-250) 100 = -250 := by
    simp only [calculateDewPoint]
    rw [show (100 : ℝ) / 100 = 1 by norm_num, Real.log_one, zero_add]
    norm_num
  rw [h100]
  simp only [calculateDewPoint]
  have hval : ((1 / 10 ^ 270 : ℝ) / 100) = ((10 : ℝ) ^ (272 : ℕ))⁻¹ := by
    rw [show ((10 : ℝ) ^ (272 : ℕ)) = 10 ^ (270 : ℕ) * 100 by ring]
    rw [one_div, div_eq_mul_inv, ← mul_inv]
  have hlog : Real.log ((1 / 10 ^ 270 : ℝ) / 100) = -(272 * Real.log 10) := by
    rw [hval, Real.log_inv, Real.log_pow]
    push_cast
    ring
  rw [hlog]
  obtain ⟨hl, hu⟩ := log_ten_bounds
  have hcval : (17.62 : ℝ) * (-250) / (243.12 + -250) = 110125 / 172 := by norm_num
  rw [hcval]
  have hg1 : (10 : ℝ) < -(272 * Real.log 10) + 110125 / 172 := by linarith
  have hg2 : -(272 * Real.log 10) + 110125 / 172 < 17.61 := by linarith
  have hpos : (0 : ℝ) < 243.12 * (-(272 * Real.log 10) + 110125 / 172) /
      (17.62 - (-(272 * Real.log 10) + 110125 / 172)) := by
    apply div_pos
    · linarith
    · linarith
  linarith

end CalcDemo
